import Mathlib

/-!
Verification of the dodo-discord-bot auto-threading core: a shallow
embedding of the thread decision engine, title generator, rate-limited
task queue, guild config store, reminder scheduler and completion
tracker, with theorems settling the claims of the specification.
-/

namespace DodoBot

/-! ## JavaScript string/collection primitives used by the source -/

/-- JS `s.slice(0, n)` on a string: the first `n` characters. -/
def jsSliceTo (s : String) (n : Nat) : String :=
  String.mk (s.data.take n)

/-- JS `a || b` on strings: the empty string is falsy, so it falls through to `b`. -/
def jsOrString (a b : String) : String :=
  if a = "" then b else a

/-- JS `Set.prototype.add`: insertion-ordered, ignores an element already present. -/
def jsSetAdd (l : List String) (x : String) : List String :=
  if l.contains x then l else l ++ [x]

/-- JS `new Set(arr)`: deduplicates keeping first occurrences, in order. -/
def jsNewSet (l : List String) : List String :=
  l.foldl (fun acc x => if acc.contains x then acc else acc ++ [x]) []

/-! ## Data model (src/types.ts) -/

/-- Fields of a discord.js `Message` (and its author/channel) read by the bot. -/
structure Msg where
  authorUsername : String
  /-- Field `author.displayName`; may be the empty string (falsy in JS). -/
  authorDisplayName : String
  authorTag : String
  authorIsBot : Bool
  content : String
  channelId : String
  channelIsThread : Bool
  /-- Field `channel.name`; may be the empty string (falsy in JS). -/
  channelName : String
  system : Bool
  /-- Field `message.guild?.id`, `none` outside a guild. -/
  guildId : Option String
  deriving Repr, DecidableEq

/-- Model of `GuildConfig` from src/types.ts.  The JS `Set<string>` field is modelled as
its insertion-ordered element list. -/
structure GuildConfig where
  guildId : String
  enabledChannels : List String
  includeBots : Bool
  titleTemplate : Option String
  replyMessage : Option String
  archiveDuration : Nat
  manuallyRenamedThreads : List String
  deriving Repr, DecidableEq

/-- Fields of a discord.js `ThreadChannel` read by the updater. -/
structure Thread where
  id : String
  name : String
  deriving Repr, DecidableEq

/-! ## ThreadDecisionEngine (threadService, `shouldCreateThread`) -/

/-- Model of `shouldCreateThread(message, config)` from the thread service. -/
def shouldCreateThread (message : Msg) (config : GuildConfig) : Bool :=
  -- No threads for messages already in threads
  if message.channelIsThread then false
  -- Check if channel is enabled
  else if !(config.enabledChannels.contains message.channelId) then false
  -- Check bot message policy
  else if message.authorIsBot && !config.includeBots then false
  -- No threads for system messages
  else if message.system then false
  else true

/-! ## Title generation (threadService, `generateThreadTitle`) -/

/-- The template-substitution pipeline of `generateThreadTitle`, before the
final truncation: each `.replace(/.../g, v)` call replaces every occurrence. -/
def substituteTemplate (message : Msg) (template : String) : String :=
  let content := message.content
  let first50 := jsOrString (jsSliceTo content 50).trim "New thread"
  let first100 := jsOrString (jsSliceTo content 100).trim "New thread"
  ((((((template.replace "$\x7bauthor.username\x7d" message.authorUsername
      ).replace "$\x7bauthor.displayName\x7d"
        (jsOrString message.authorDisplayName message.authorUsername)
      ).replace "$\x7bauthor.tag\x7d" message.authorTag
      ).replace "$\x7bfirst50\x7d" first50
      ).replace "$\x7bfirst100\x7d" first100
      ).replace "$\x7bchannel.name\x7d" (jsOrString message.channelName "channel"))

/-- Model of `generateThreadTitle(message, template?)` from the thread service. -/
def generateThreadTitle (message : Msg) (template : Option String) : String :=
  let content := message.content
  let first50 := jsOrString (jsSliceTo content 50).trim "New thread"
  match template with
  | none =>
    -- Default fallback: "${first50}"
    jsSliceTo first50 100
  | some t =>
    -- Ensure title length is within Discord limits (max 100 chars)
    jsSliceTo (substituteTemplate message t) 100

theorem jsSliceTo_length_le (s : String) (n : Nat) : (jsSliceTo s n).length ≤ n := by
  have h : (jsSliceTo s n).length = (s.data.take n).length := rfl
  rw [h, List.length_take]
  omega

/-- Sample message used to instantiate universally quantified theorems. -/
def sampleMsg : Msg :=
  { authorUsername := "alice"
    authorDisplayName := "Alice"
    authorTag := "alice#0001"
    authorIsBot := false
    content := "hello world"
    channelId := "chan1"
    channelIsThread := true
    channelName := "general"
    system := false
    guildId := some "guild1" }

/-- A sample guild configuration. -/
def sampleConfig : GuildConfig :=
  { guildId := "guild1"
    enabledChannels := ["chan1"]
    includeBots := false
    titleTemplate := none
    replyMessage := none
    archiveDuration := 1440
    manuallyRenamedThreads := [] }

/-- C4: every generated thread title has length at most 100, and with a
template the result is exactly the substituted template truncated to 100
characters — truncation is applied last, after all substitution. -/
theorem generateThreadTitle_length_le_100 (m : Msg) (t : Option String) :
    (generateThreadTitle m t).length ≤ 100 ∧
    (∀ tpl : String,
      generateThreadTitle m (some tpl) = jsSliceTo (substituteTemplate m tpl) 100) := by
  refine ⟨?_, fun tpl => rfl⟩
  cases t with
  | none => exact jsSliceTo_length_le _ 100
  | some tpl => exact jsSliceTo_length_le _ 100

/-- C7: `shouldCreateThread` is false whenever the channel of the message is a
thread, regardless of every other field of the message and the config. -/
theorem shouldCreateThread_false_in_thread (m : Msg) (c : GuildConfig)
    (h : m.channelIsThread = true) : shouldCreateThread m c = false := by
  simp [shouldCreateThread, h]

/-- Witness for C7 at a concrete message and config. -/
theorem shouldCreateThread_false_in_thread_witness :
    shouldCreateThread sampleMsg sampleConfig = false :=
  shouldCreateThread_false_in_thread sampleMsg sampleConfig rfl

/-- C10: the thread-creation decision depends only on `enabledChannels` and
`includeBots`; two configs agreeing on these two fields decide identically. -/
theorem shouldCreateThread_noninterference (m : Msg) (c1 c2 : GuildConfig)
    (h1 : c1.enabledChannels = c2.enabledChannels)
    (h2 : c1.includeBots = c2.includeBots) :
    shouldCreateThread m c1 = shouldCreateThread m c2 := by
  simp only [shouldCreateThread, h1, h2]

/-- A second sample config: same decision-relevant fields as `sampleConfig`,
different template, reply, archive duration and rename set. -/
def sampleConfig2 : GuildConfig :=
  { guildId := "guild1"
    enabledChannels := ["chan1"]
    includeBots := false
    titleTemplate := some "$\x7bfirst50\x7d"
    replyMessage := some "welcome"
    archiveDuration := 60
    manuallyRenamedThreads := ["tid9"] }

/-- Witness for C10 at two concrete configs differing only in
decision-irrelevant fields. -/
theorem shouldCreateThread_noninterference_witness :
    shouldCreateThread sampleMsg sampleConfig = shouldCreateThread sampleMsg sampleConfig2 :=
  shouldCreateThread_noninterference sampleMsg sampleConfig sampleConfig2 rfl rfl

/-! ## RateLimitQueue (threadService) -/

/-- Result of one execution attempt of a queued task: success, a rejection
with `err.code === 429` (optionally carrying a truthy `err.retryAfter` in
seconds; `none` models a falsy `retryAfter`, absent or zero, for which the
code falls back to its own backoff delay), or any other error. -/
inductive TaskOutcome
  | ok
  | rateLimited (retryAfter : Option Nat)
  | otherError
  deriving Repr, DecidableEq

/-- A queued task: an identity plus the scripted outcome of each successive
execution attempt (an exhausted script means the attempt succeeds). -/
structure QTask (α : Type) where
  id : α
  outcomes : List TaskOutcome
  deriving Repr, DecidableEq

/-- State of the consumer loop of `RateLimitQueue`, with ghost logs: ids of all
execution attempts in order, ids of completed tasks in order, and the
backoff sleeps taken when the server suggested no retry delay. -/
structure QueueState (α : Type) where
  queue : List (QTask α)
  retryDelay : Nat
  attempts : List α
  completed : List α
  backoffSleeps : List Nat
  deriving Repr

/-- State after all tasks are pushed and before `processQueue` runs:
`retryDelay` starts at 1000 ms. -/
def initState {α : Type} (tasks : List (QTask α)) : QueueState α :=
  { queue := tasks, retryDelay := 1000, attempts := [], completed := [], backoffSleeps := [] }

/-- One iteration of the `while (this.queue.length > 0)` body of
`processQueue`: shift the head task, run it; on success reset the delay to
1000; on a 429 unshift the task back to the head, sleep `retryAfter * 1000`
if given else the current delay, and double the delay capped at 60000; on
any other error drop the task. -/
def processStep {α : Type} (s : QueueState α) : QueueState α :=
  match s.queue with
  | [] => s
  | task :: rest =>
    match task.outcomes with
    | [] =>
      { s with
        queue := rest
        retryDelay := 1000
        attempts := s.attempts ++ [task.id]
        completed := s.completed ++ [task.id] }
    | .ok :: _ =>
      { s with
        queue := rest
        retryDelay := 1000
        attempts := s.attempts ++ [task.id]
        completed := s.completed ++ [task.id] }
    | .rateLimited ra :: restOutcomes =>
      { s with
        queue := { task with outcomes := restOutcomes } :: rest
        attempts := s.attempts ++ [task.id]
        backoffSleeps :=
          match ra with
          | some _ => s.backoffSleeps
          | none => s.backoffSleeps ++ [s.retryDelay]
        retryDelay := min (s.retryDelay * 2) 60000 }
    | .otherError :: _ =>
      { s with
        queue := rest
        attempts := s.attempts ++ [task.id] }

/-- The consumer loop, fuelled: stops when the queue is empty. -/
def runQueue {α : Type} : Nat → QueueState α → QueueState α
  | 0, s => s
  | fuel + 1, s =>
    match s.queue with
    | [] => s
    | _ :: _ => runQueue fuel (processStep s)

/-- C1: with tasks `a`, `b`, `c` enqueued in order where `b` fails once with
a 429 and then succeeds, all three complete; the attempt trace is
`a, b, b, c` (so `b` is re-executed before `c`), after the failure `b` sits
at the head of the queue, and `a`, `c` keep their original order around `b`. -/
theorem rateLimitQueue_429_retry_order {α : Type} (a b c : α) (ra : Option Nat) :
    (runQueue 4 (initState [⟨a, [.ok]⟩, ⟨b, [.rateLimited ra, .ok]⟩, ⟨c, [.ok]⟩])).queue
      = [] ∧
    (runQueue 4 (initState [⟨a, [.ok]⟩, ⟨b, [.rateLimited ra, .ok]⟩, ⟨c, [.ok]⟩])).completed
      = [a, b, c] ∧
    (runQueue 4 (initState [⟨a, [.ok]⟩, ⟨b, [.rateLimited ra, .ok]⟩, ⟨c, [.ok]⟩])).attempts
      = [a, b, b, c] ∧
    (runQueue 2 (initState [⟨a, [.ok]⟩, ⟨b, [.rateLimited ra, .ok]⟩, ⟨c, [.ok]⟩])).queue
      = [⟨b, [.ok]⟩, ⟨c, [.ok]⟩] :=
  ⟨rfl, rfl, rfl, rfl⟩

/-- The backoff invariant: the retry delay lies in [1000, 60000] and every
recorded backoff sleep does too. -/
def QueueInv {α : Type} (s : QueueState α) : Prop :=
  1000 ≤ s.retryDelay ∧ s.retryDelay ≤ 60000 ∧
  ∀ x ∈ s.backoffSleeps, 1000 ≤ x ∧ x ≤ 60000

theorem processStep_inv {α : Type} (s : QueueState α) (h : QueueInv s) :
    QueueInv (processStep s) := by
  obtain ⟨h1, h2, h3⟩ := h
  rcases hq : s.queue with _ | ⟨task, rest⟩
  · simp only [QueueInv, processStep, hq]
    exact ⟨h1, h2, h3⟩
  · rcases ho : task.outcomes with _ | ⟨o, os⟩
    · simp only [QueueInv, processStep, hq, ho]
      exact ⟨by omega, by omega, h3⟩
    · cases o with
      | ok =>
        simp only [QueueInv, processStep, hq, ho]
        exact ⟨by omega, by omega, h3⟩
      | otherError =>
        simp only [QueueInv, processStep, hq, ho]
        exact ⟨h1, h2, h3⟩
      | rateLimited ra =>
        cases ra with
        | none =>
          simp only [QueueInv, processStep, hq, ho]
          refine ⟨by omega, by omega, ?_⟩
          intro x hx
          rcases List.mem_append.mp hx with hx | hx
          · exact h3 x hx
          · have hx' : x = s.retryDelay := List.mem_singleton.mp hx
            omega
        | some secs =>
          simp only [QueueInv, processStep, hq, ho]
          exact ⟨by omega, by omega, h3⟩

theorem runQueue_inv {α : Type} (fuel : Nat) (s : QueueState α) (h : QueueInv s) :
    QueueInv (runQueue fuel s) := by
  induction fuel generalizing s with
  | zero => exact h
  | succ n ih =>
    rcases hq : s.queue with _ | ⟨task, rest⟩
    · simp only [runQueue, hq]
      exact h
    · simp only [runQueue, hq]
      exact ih _ (processStep_inv s h)

/-- C9: from the initial state of any task list, after any number of consumer
steps the retry delay lies in [1000 ms, 60000 ms], and every backoff sleep
taken when the server suggested no retry delay lies in the same interval. -/
theorem rateLimitQueue_backoff_bounds {α : Type} (fuel : Nat) (tasks : List (QTask α)) :
    1000 ≤ (runQueue fuel (initState tasks)).retryDelay ∧
    (runQueue fuel (initState tasks)).retryDelay ≤ 60000 ∧
    ∀ x ∈ (runQueue fuel (initState tasks)).backoffSleeps, 1000 ≤ x ∧ x ≤ 60000 :=
  runQueue_inv fuel (initState tasks)
    ⟨by simp [initState], by simp [initState], by intro x hx; simp [initState] at hx⟩

/-- A task rejected once with a 429 carrying no server retry delay. -/
def sampleRLTask : QTask Nat := ⟨0, [.rateLimited none]⟩

/-- Witness for C9: running the queue on a concrete task that is rate limited
once with no server-suggested delay; the recorded backoff sleep of 1000 ms is
within bounds. -/
theorem rateLimitQueue_backoff_bounds_witness :
    1000 ≤ (runQueue 2 (initState [sampleRLTask])).retryDelay ∧
    (runQueue 2 (initState [sampleRLTask])).retryDelay ≤ 60000 ∧
    (1000 ≤ 1000 ∧ 1000 ≤ 60000) :=
  ⟨(rateLimitQueue_backoff_bounds 2 [sampleRLTask]).1,
   (rateLimitQueue_backoff_bounds 2 [sampleRLTask]).2.1,
   (rateLimitQueue_backoff_bounds 2 [sampleRLTask]).2.2 1000 (by decide)⟩

/-! ## GuildConfigStore (configStore, FileConfigStore) -/

/-- The JSON object written to `configs/<guildId>.json`: the full config with
`manuallyRenamedThreads` converted from a Set to an array. -/
structure StoredGuildConfig where
  guildId : String
  enabledChannels : List String
  includeBots : Bool
  titleTemplate : Option String
  replyMessage : Option String
  archiveDuration : Nat
  manuallyRenamedThreads : List String
  deriving Repr, DecidableEq

/-- The serialization step of `FileConfigStore.set`: `Array.from(set)`. -/
def serializeConfig (config : GuildConfig) : StoredGuildConfig :=
  { guildId := config.guildId
    enabledChannels := config.enabledChannels
    includeBots := config.includeBots
    titleTemplate := config.titleTemplate
    replyMessage := config.replyMessage
    archiveDuration := config.archiveDuration
    manuallyRenamedThreads := config.manuallyRenamedThreads }

/-- The parse step of `FileConfigStore.get`: `new Set(parsed.manuallyRenamedThreads)`. -/
def deserializeConfig (parsed : StoredGuildConfig) : GuildConfig :=
  { guildId := parsed.guildId
    enabledChannels := parsed.enabledChannels
    includeBots := parsed.includeBots
    titleTemplate := parsed.titleTemplate
    replyMessage := parsed.replyMessage
    archiveDuration := parsed.archiveDuration
    manuallyRenamedThreads := jsNewSet parsed.manuallyRenamedThreads }

/-- Lookup in an association list; newest binding (head) wins, which models
overwriting `Map.set` / file overwrite. -/
def assocLookup {β : Type} (l : List (String × β)) (k : String) : Option β :=
  match l with
  | [] => none
  | (k', v) :: rest => if k' = k then some v else assocLookup rest k

/-- State of `FileConfigStore`: the config files on disk and the in-memory cache. -/
structure StoreState where
  files : List (String × StoredGuildConfig)
  cache : List (String × GuildConfig)
  deriving Repr

/-- Model of `DEFAULT_CONFIG` spread with the guild id: empty channels, no bots,
24-hour archive, empty rename set, no templates. -/
def defaultConfig (guildId : String) : GuildConfig :=
  { guildId := guildId
    enabledChannels := []
    includeBots := false
    titleTemplate := none
    replyMessage := none
    archiveDuration := 1440
    manuallyRenamedThreads := [] }

/-- Model of `FileConfigStore.get`: cache hit, else read and parse the file (caching
the result), else default (cached, not persisted). -/
def storeGet (s : StoreState) (guildId : String) : GuildConfig × StoreState :=
  match assocLookup s.cache guildId with
  | some config => (config, s)
  | none =>
    match assocLookup s.files guildId with
    | some parsed =>
      let config := deserializeConfig parsed
      (config, { s with cache := (guildId, config) :: s.cache })
    | none =>
      let config := defaultConfig guildId
      (config, { s with cache := (guildId, config) :: s.cache })

/-- Model of `FileConfigStore.set`: write the serialized record and update the cache. -/
def storeSet (s : StoreState) (guildId : String) (config : GuildConfig) : StoreState :=
  { files := (guildId, serializeConfig config) :: s.files
    cache := (guildId, config) :: s.cache }

/-- Clearing the in-memory cache (the round-trip scenario of the spec). -/
def clearCache (s : StoreState) : StoreState :=
  { s with cache := [] }

theorem jsNewSet_mem (l : List String) (x : String) : x ∈ jsNewSet l ↔ x ∈ l := by
  have key : ∀ (l acc : List String),
      x ∈ l.foldl (fun acc y => if acc.contains y then acc else acc ++ [y]) acc
        ↔ x ∈ acc ∨ x ∈ l := by
    intro l
    induction l with
    | nil => intro acc; simp
    | cons y ys ih =>
      intro acc
      simp only [List.foldl_cons, ih]
      by_cases hy : acc.contains y
      · simp only [if_pos hy]
        have hy' : y ∈ acc := by simpa using hy
        constructor
        · rintro (h | h)
          · exact Or.inl h
          · exact Or.inr (List.mem_cons_of_mem _ h)
        · rintro (h | h)
          · exact Or.inl h
          · rcases List.mem_cons.mp h with rfl | h
            · exact Or.inl hy'
            · exact Or.inr h
      · simp only [if_neg hy, List.mem_append, List.mem_singleton, List.mem_cons]
        tauto
  simp only [jsNewSet]
  rw [key l []]
  simp

theorem jsNewSet_eq_of_nodup (l : List String) (h : l.Nodup) : jsNewSet l = l := by
  have key : ∀ (l acc : List String), (acc ++ l).Nodup →
      l.foldl (fun acc y => if acc.contains y then acc else acc ++ [y]) acc = acc ++ l := by
    intro l
    induction l with
    | nil => intro acc _; simp
    | cons y ys ih =>
      intro acc hnd
      have hy : ¬ acc.contains y := by
        intro hc
        have hy' : y ∈ acc := by simpa using hc
        have := List.disjoint_of_nodup_append hnd
        exact this hy' (List.mem_cons_self y ys)
      simp only [List.foldl_cons, if_neg hy]
      have hnd' : ((acc ++ [y]) ++ ys).Nodup := by
        simpa [List.append_assoc] using hnd
      rw [ih (acc ++ [y]) hnd']
      simp
  simp only [jsNewSet]
  rw [key l [] (by simpa using h)]
  simp

/-- C2: `set(g, cfg)` followed by `get(g)` with the cache cleared returns a
config agreeing with `cfg` on every plain field and on exact membership of
`manuallyRenamedThreads`; for an actual JS Set (no duplicate elements) the
returned config equals `cfg`. -/
theorem configStore_set_get_roundtrip (s : StoreState) (g : String) (cfg : GuildConfig) :
    (∀ x, x ∈ (storeGet (clearCache (storeSet s g cfg)) g).1.manuallyRenamedThreads ↔
        x ∈ cfg.manuallyRenamedThreads) ∧
    (storeGet (clearCache (storeSet s g cfg)) g).1.guildId = cfg.guildId ∧
    (storeGet (clearCache (storeSet s g cfg)) g).1.enabledChannels = cfg.enabledChannels ∧
    (storeGet (clearCache (storeSet s g cfg)) g).1.includeBots = cfg.includeBots ∧
    (storeGet (clearCache (storeSet s g cfg)) g).1.titleTemplate = cfg.titleTemplate ∧
    (storeGet (clearCache (storeSet s g cfg)) g).1.replyMessage = cfg.replyMessage ∧
    (storeGet (clearCache (storeSet s g cfg)) g).1.archiveDuration = cfg.archiveDuration ∧
    (cfg.manuallyRenamedThreads.Nodup → (storeGet (clearCache (storeSet s g cfg)) g).1 = cfg) := by
  have hres : (storeGet (clearCache (storeSet s g cfg)) g).1
      = { cfg with manuallyRenamedThreads := jsNewSet cfg.manuallyRenamedThreads } := by
    simp [storeGet, clearCache, storeSet, assocLookup, deserializeConfig, serializeConfig]
  rw [hres]
  refine ⟨fun x => jsNewSet_mem _ x, rfl, rfl, rfl, rfl, rfl, rfl, fun hnd => ?_⟩
  rw [jsNewSet_eq_of_nodup _ hnd]

/-- Witness for C2 at a concrete store and config with a two-element rename set. -/
theorem configStore_set_get_roundtrip_witness :
    ("t1" ∈ (storeGet (clearCache (storeSet ⟨[], []⟩ "guild1"
        { sampleConfig with manuallyRenamedThreads := ["t1", "t2"] })) "guild1").1.manuallyRenamedThreads
      ↔ "t1" ∈ ["t1", "t2"]) ∧
    (storeGet (clearCache (storeSet ⟨[], []⟩ "guild1"
        { sampleConfig with manuallyRenamedThreads := ["t1", "t2"] })) "guild1").1
      = { sampleConfig with manuallyRenamedThreads := ["t1", "t2"] } :=
  ⟨(configStore_set_get_roundtrip ⟨[], []⟩ "guild1"
      { sampleConfig with manuallyRenamedThreads := ["t1", "t2"] }).1 "t1",
   (configStore_set_get_roundtrip ⟨[], []⟩ "guild1"
      { sampleConfig with manuallyRenamedThreads := ["t1", "t2"] }).2.2.2.2.2.2.2
      (by decide)⟩

/-! ## Auto-title updater (threadService, `updateThreadTitle` and
`markThreadAsManuallyRenamed`) -/

/-- A rename task placed on the rate-limit queue: `thread.setName(newTitle)`,
recorded as (thread id, new name). -/
abbrev RenameTask := String × String

/-- Model of `updateThreadTitle(message, thread)`: no-op outside a guild; no-op when
the thread is marked manually renamed; otherwise enqueue a rename only when
the recomputed title differs from the current thread name. -/
def updateThreadTitle (s : StoreState) (queue : List RenameTask)
    (message : Msg) (thread : Thread) : StoreState × List RenameTask :=
  match message.guildId with
  | none => (s, queue)
  | some g =>
    let res := storeGet s g
    -- No update if manually renamed
    if res.1.manuallyRenamedThreads.contains thread.id then
      (res.2, queue)
    else if thread.name ≠ generateThreadTitle message res.1.titleTemplate then
      (res.2, queue ++ [(thread.id, generateThreadTitle message res.1.titleTemplate)])
    else
      (res.2, queue)

/-- Model of `markThreadAsManuallyRenamed(guildId, threadId)`: fetch the config, add
the thread id to the rename set, persist. -/
def markThreadAsManuallyRenamed (s : StoreState) (guildId threadId : String) : StoreState :=
  let res := storeGet s guildId
  storeSet res.2 guildId
    { res.1 with manuallyRenamedThreads := jsSetAdd res.1.manuallyRenamedThreads threadId }

theorem storeGet_storeSet_fst (s : StoreState) (g : String) (cfg : GuildConfig) :
    (storeGet (storeSet s g cfg) g).1 = cfg := by
  simp [storeGet, storeSet, assocLookup]

theorem jsSetAdd_contains_self (l : List String) (x : String) :
    (jsSetAdd l x).contains x = true := by
  by_cases h : l.contains x = true
  · rw [jsSetAdd, if_pos h]
    exact h
  · rw [jsSetAdd, if_neg h]
    simp

/-- C8: once a thread has been marked manually renamed, `updateThreadTitle`
for that thread enqueues nothing and leaves the queue unchanged; when the
thread is not in the rename set, a rename task is enqueued exactly when the
freshly computed title differs from the current thread name. -/
theorem updateThreadTitle_frame (s : StoreState) (q : List RenameTask)
    (m : Msg) (th : Thread) (g : String) (hg : m.guildId = some g) :
    (updateThreadTitle (markThreadAsManuallyRenamed s g th.id) q m th).2 = q ∧
    ((storeGet s g).1.manuallyRenamedThreads.contains th.id = false →
      (updateThreadTitle s q m th).2 =
        if th.name ≠ generateThreadTitle m (storeGet s g).1.titleTemplate
        then q ++ [(th.id, generateThreadTitle m (storeGet s g).1.titleTemplate)]
        else q) := by
  constructor
  · have h1 : (storeGet (markThreadAsManuallyRenamed s g th.id) g).1.manuallyRenamedThreads.contains
        th.id = true := by
      simp only [markThreadAsManuallyRenamed]
      rw [storeGet_storeSet_fst]
      exact jsSetAdd_contains_self _ _
    simp only [updateThreadTitle, hg, h1, if_true]
  · intro hnotin
    simp only [updateThreadTitle, hg, hnotin, Bool.false_eq_true, if_false]
    by_cases hne : th.name ≠ generateThreadTitle m (storeGet s g).1.titleTemplate
    · simp [hne]
    · simp [hne]

/-- Witness for C8: marking thread `tid1` then updating enqueues nothing on
an empty queue; on the unmarked store the enqueue follows the title
comparison. -/
theorem updateThreadTitle_frame_witness :
    (updateThreadTitle (markThreadAsManuallyRenamed ⟨[], []⟩ "guild1" "tid1") []
        sampleMsg ⟨"tid1", "name"⟩).2 = [] ∧
    (updateThreadTitle ⟨[], []⟩ [] sampleMsg ⟨"tid1", "name"⟩).2 =
      if ("name" : String) ≠
          generateThreadTitle sampleMsg (storeGet ⟨[], []⟩ "guild1").1.titleTemplate
      then ([] : List RenameTask) ++
        [("tid1", generateThreadTitle sampleMsg (storeGet ⟨[], []⟩ "guild1").1.titleTemplate)]
      else [] :=
  ⟨(updateThreadTitle_frame ⟨[], []⟩ [] sampleMsg ⟨"tid1", "name"⟩ "guild1" rfl).1,
   (updateThreadTitle_frame ⟨[], []⟩ [] sampleMsg ⟨"tid1", "name"⟩ "guild1" rfl).2 (by decide)⟩

/-! ## ReminderService (src/services/reminderService.ts) -/

/-- Model of `DURATION.REMINDER_DELAY_MS` from the constants module: 24 hours. -/
def REMINDER_DELAY_MS : Nat := 24 * 60 * 60 * 1000

/-- The in-memory `Reminder` record. -/
structure Reminder where
  guildId : String
  userId : String
  reminderType : String
  scheduledFor : Nat
  sent : Bool
  deriving Repr, DecidableEq

/-- The predicate used by both `scheduleReminder` and `cancelReminder`:
an un-sent `24h_intro_incomplete` reminder for the (guildId, userId) pair. -/
def isPending24h (g u : String) (r : Reminder) : Bool :=
  r.guildId == g && r.userId == u && r.reminderType == "24h_intro_incomplete" && !r.sent

/-- Model of `scheduleReminder(guildId, userId)`: a no-op when an un-sent reminder for
the pair already exists; otherwise push a fresh one due 24 h from now. -/
def scheduleReminder (l : List Reminder) (g u : String) (now : Nat) : List Reminder :=
  if l.any (isPending24h g u) then l
  else l ++ [⟨g, u, "24h_intro_incomplete", now + REMINDER_DELAY_MS, false⟩]

/-- Model of `cancelReminder(guildId, userId)`: `findIndex` + `splice(i, 1)` — remove
the first matching un-sent reminder, if any. -/
def cancelReminder (l : List Reminder) (g u : String) : List Reminder :=
  match l with
  | [] => []
  | r :: rest => if isPending24h g u r then rest else r :: cancelReminder rest g u

/-- Selection predicate of the sweep: `!r.sent && r.scheduledFor <= now`. -/
def isDue (now : Nat) (r : Reminder) : Bool :=
  !r.sent && decide (r.scheduledFor ≤ now)

/-- Model of `processPendingReminders` + `sendReminder`: select all due un-sent
reminders, attempt a DM for each, and mark each one sent whether or not the
DM succeeded (the catch branch also sets `sent = true`).  Returns the new
reminder list, the selected (attempted) reminders, and the log of user ids
whose DM delivery succeeded — the only place the delivery outcome matters. -/
def processPendingReminders (l : List Reminder) (now : Nat) (deliver : String → Bool) :
    List Reminder × List Reminder × List String :=
  let pending := l.filter (isDue now)
  ( l.map (fun r => if isDue now r then { r with sent := true } else r)
  , pending
  , (pending.filter (fun r => deliver r.userId)).map (fun r => r.userId) )

/-- The un-sent `24h_intro_incomplete` reminders of a (guildId, userId) pair. -/
def pendingFor (l : List Reminder) (g u : String) : List Reminder :=
  l.filter (isPending24h g u)

/-- The invariant of C5: at most one pending reminder per (guildId, userId) pair. -/
def ReminderInv (l : List Reminder) : Prop :=
  ∀ g u, (pendingFor l g u).length ≤ 1

theorem cancelReminder_sublist (g u : String) :
    ∀ l : List Reminder, List.Sublist (cancelReminder l g u) l := by
  intro l
  induction l with
  | nil => simp [cancelReminder]
  | cons r rest ih =>
    rw [cancelReminder]
    by_cases h : isPending24h g u r = true
    · rw [if_pos h]
      exact List.Sublist.cons r (List.Sublist.refl rest)
    · rw [if_neg h]
      exact List.Sublist.cons₂ r ih

theorem length_filter_map_le {f : Reminder → Reminder} {p : Reminder → Bool}
    (hp : ∀ r, p (f r) = true → p r = true) :
    ∀ l : List Reminder, ((l.map f).filter p).length ≤ (l.filter p).length := by
  intro l
  induction l with
  | nil => simp
  | cons r rest ih =>
    simp only [List.map_cons, List.filter_cons]
    by_cases h1 : p (f r) = true
    · rw [if_pos h1, if_pos (hp r h1)]
      simpa using ih
    · rw [if_neg h1]
      by_cases h2 : p r = true
      · rw [if_pos h2]
        exact le_trans ih (by simp)
      · rw [if_neg h2]
        exact ih

/-- C5: the at-most-one-pending invariant is preserved by `scheduleReminder`
(a duplicate request is a no-op), by `cancelReminder` (removes at most one)
and by the sweep (only flips `sent` to true); scheduling twice on the empty
list yields exactly one pending reminder and cancelling after scheduling
yields zero. -/
theorem reminder_pending_uniqueness (l : List Reminder) (g u : String) (now now2 : Nat)
    (deliver : String → Bool) :
    (ReminderInv l → ReminderInv (scheduleReminder l g u now)) ∧
    (ReminderInv l → ReminderInv (cancelReminder l g u)) ∧
    (ReminderInv l → ReminderInv (processPendingReminders l now deliver).1) ∧
    (pendingFor (scheduleReminder (scheduleReminder [] g u now) g u now2) g u).length = 1 ∧
    (pendingFor (cancelReminder (scheduleReminder [] g u now) g u) g u).length = 0 := by
  refine ⟨?_, ?_, ?_, ?_, ?_⟩
  · intro h
    rw [scheduleReminder]
    by_cases hx : l.any (isPending24h g u) = true
    · rw [if_pos hx]
      exact h
    · rw [if_neg hx]
      intro g' u'
      rw [pendingFor, List.filter_append]
      by_cases hm : isPending24h g' u' ⟨g, u, "24h_intro_incomplete", now + REMINDER_DELAY_MS, false⟩ = true
      · have hgu : g = g' ∧ u = u' := by
          simp only [isPending24h, Bool.and_eq_true, beq_iff_eq] at hm
          exact ⟨hm.1.1.1, hm.1.1.2⟩
        obtain ⟨rfl, rfl⟩ := hgu
        have hempty : l.filter (isPending24h g u) = [] := by
          rw [List.filter_eq_nil_iff]
          intro r hr hc
          exact hx (List.any_eq_true.mpr ⟨r, hr, hc⟩)
        rw [hempty]
        simp [hm]
      · have hm' : isPending24h g' u'
            ⟨g, u, "24h_intro_incomplete", now + REMINDER_DELAY_MS, false⟩ = false := by
          simpa using hm
        simp only [List.filter_cons, List.filter_nil, hm']
        simpa [pendingFor] using h g' u'
  · intro h g' u'
    have hs : List.Sublist (pendingFor (cancelReminder l g u) g' u') (pendingFor l g' u') :=
      List.Sublist.filter _ (cancelReminder_sublist g u l)
    exact le_trans hs.length_le (h g' u')
  · intro h g' u'
    have hp : ∀ r, isPending24h g' u' (if isDue now r then { r with sent := true } else r) = true →
        isPending24h g' u' r = true := by
      intro r hr
      by_cases hd : isDue now r = true
      · rw [if_pos hd] at hr
        simp [isPending24h] at hr
      · rwa [if_neg hd] at hr
    exact le_trans (length_filter_map_le hp l) (h g' u')
  · simp [scheduleReminder, pendingFor, isPending24h, List.filter_singleton]
  · simp [scheduleReminder, cancelReminder, pendingFor, isPending24h]

/-- Witness for C5: on the empty reminder list, scheduling yields a list
satisfying the invariant, scheduling twice yields exactly one pending
reminder, and schedule-then-cancel yields zero. -/
theorem reminder_pending_uniqueness_witness :
    ReminderInv (scheduleReminder [] "guild1" "user1" 0) ∧
    (pendingFor (scheduleReminder (scheduleReminder [] "guild1" "user1" 0) "guild1" "user1" 1)
        "guild1" "user1").length = 1 ∧
    (pendingFor (cancelReminder (scheduleReminder [] "guild1" "user1" 0) "guild1" "user1")
        "guild1" "user1").length = 0 :=
  ⟨(reminder_pending_uniqueness [] "guild1" "user1" 0 1 (fun _ => true)).1
      (by intro g u; simp [pendingFor]),
   (reminder_pending_uniqueness [] "guild1" "user1" 0 1 (fun _ => true)).2.2.2.1,
   (reminder_pending_uniqueness [] "guild1" "user1" 0 1 (fun _ => true)).2.2.2.2⟩

/-- C6: the sweep selects exactly the un-sent reminders due at `now`; it
removes no record; marking does not depend on the delivery outcome; every
selected reminder is marked sent; unselected reminders are untouched; and a
second sweep at the same time re-attempts nothing. -/
theorem reminder_sweep_postcondition (l : List Reminder) (now : Nat)
    (deliver deliver2 : String → Bool) :
    (processPendingReminders l now deliver).2.1
      = l.filter (fun r => !r.sent && decide (r.scheduledFor ≤ now)) ∧
    (processPendingReminders l now deliver).1.length = l.length ∧
    (processPendingReminders l now deliver).1 = (processPendingReminders l now deliver2).1 ∧
    (∀ r ∈ (processPendingReminders l now deliver).2.1,
      { r with sent := true } ∈ (processPendingReminders l now deliver).1) ∧
    (∀ r ∈ l, isDue now r = false → r ∈ (processPendingReminders l now deliver).1) ∧
    (processPendingReminders (processPendingReminders l now deliver).1 now deliver2).2.1 = [] := by
  refine ⟨rfl, by simp [processPendingReminders], rfl, ?_, ?_, ?_⟩
  · intro r hr
    have hr' := List.mem_filter.mp hr
    have hf : (if isDue now r then { r with sent := true } else r) = { r with sent := true } :=
      if_pos hr'.2
    exact hf ▸ List.mem_map_of_mem _ hr'.1
  · intro r hl hnd
    have hf : (if isDue now r then { r with sent := true } else r) = r := by
      rw [if_neg]
      simp [hnd]
    exact hf ▸ List.mem_map_of_mem _ hl
  · simp only [processPendingReminders]
    rw [List.filter_eq_nil_iff]
    intro r' hr'
    obtain ⟨r, hrl, rfl⟩ := List.mem_map.mp hr'
    by_cases hd : isDue now r = true
    · rw [if_pos hd]
      simp [isDue]
    · rw [if_neg hd]
      simpa [isDue] using hd

/-- A reminder due at time 10. -/
def sampleReminder1 : Reminder := ⟨"guild1", "user1", "24h_intro_incomplete", 5, false⟩

/-- A reminder not yet due at time 10. -/
def sampleReminder2 : Reminder := ⟨"guild1", "user2", "24h_intro_incomplete", 20, false⟩

/-- Witness for C6 on a concrete two-reminder list at time 10 with a failing
delivery function: the due reminder is selected and marked sent anyway, the
not-yet-due one is untouched, and an immediate second sweep selects nothing. -/
theorem reminder_sweep_postcondition_witness :
    { sampleReminder1 with sent := true }
        ∈ (processPendingReminders [sampleReminder1, sampleReminder2] 10 (fun _ => false)).1 ∧
    sampleReminder2
        ∈ (processPendingReminders [sampleReminder1, sampleReminder2] 10 (fun _ => false)).1 ∧
    (processPendingReminders
        (processPendingReminders [sampleReminder1, sampleReminder2] 10 (fun _ => false)).1
        10 (fun _ => false)).2.1 = [] :=
  ⟨(reminder_sweep_postcondition [sampleReminder1, sampleReminder2] 10
        (fun _ => false) (fun _ => false)).2.2.2.1 sampleReminder1 (by decide),
   (reminder_sweep_postcondition [sampleReminder1, sampleReminder2] 10
        (fun _ => false) (fun _ => false)).2.2.2.2.1 sampleReminder2 (by decide) (by decide),
   (reminder_sweep_postcondition [sampleReminder1, sampleReminder2] 10
        (fun _ => false) (fun _ => false)).2.2.2.2.2⟩

/-! ## CompletionTracker (discord-intro-bot, `userCompletions` and
`checkAndAwardBadge`) -/

/-- The per-user record of `userCompletions`: a set of completed form types
(`intro`, `working`, `showcase`) and a wall-clock timestamp. -/
structure CompletionData where
  completions : List String
  timestamp : Nat
  deriving Repr, DecidableEq

/-- The completion gate of `checkAndAwardBadge`: `userData` may be absent
(falsy); complete iff the set has `intro` and (`working` or `showcase`). -/
def checkCompleted (userData : Option CompletionData) : Bool :=
  match userData with
  | none => false
  | some d =>
    d.completions.contains "intro" &&
      (d.completions.contains "working" || d.completions.contains "showcase")

/-- C3: a user is fully complete iff their completion set contains `intro`
and at least one of `working`/`showcase`; in particular `{intro, working}`
and `{intro, showcase}` are complete and `{working}` alone is not (nor is a
user with no record at all). -/
theorem checkCompleted_iff (d : CompletionData) :
    (checkCompleted (some d) = true ↔
      "intro" ∈ d.completions ∧
        ("working" ∈ d.completions ∨ "showcase" ∈ d.completions)) ∧
    checkCompleted none = false ∧
    checkCompleted (some ⟨["intro", "working"], 0⟩) = true ∧
    checkCompleted (some ⟨["intro", "showcase"], 0⟩) = true ∧
    checkCompleted (some ⟨["working"], 0⟩) = false := by
  refine ⟨?_, rfl, by decide, by decide, by decide⟩
  simp [checkCompleted]

end DodoBot
